import Mathlib

/-!
Verification of the `logging` module of micropython-lib (file
`logging/logging/__init__.py`) via a shallow embedding in Lean 4.

Conventions of the embedding:
* Python integers are `Int`; Python truthiness of an integer (`a or b`)
  is `pyOrInt`.
* Python exceptions are values of the inductive type `Err`; code that can
  raise returns `Except Err _`.
* The process-wide mutable globals `_level`, `_level_dict` and `_loggers`
  are passed explicitly (`g : Int`, `d : LevelDict`, `RegState`).
* Side effects of the sinks (stream writes, file writes, datagram sends)
  are recorded as values of type `Event`; the internal file-handle state
  machine of `FileHandler` (lazy open) is I/O glue outside the verified
  pipeline and is not modelled.
* Dynamic attributes that `Formatter.format` adds to a record at run time
  (`message`, `asctime`, `exc_text`) are `Option String` fields that start
  out `none` (= attribute absent); reading an absent attribute raises
  `Err.attributeError`, exactly as in Python.
-/

namespace ULogging

/-- Values that can appear as positional logging arguments or as entries of
a record attribute dictionary: Python strings, ints and `None`. -/
inductive PyVal where
  | str (s : String)
  | int (n : Int)
  | noneVal
deriving DecidableEq

/-- Python exception values raised by the modelled code, one constructor per
exception class; distinct raise sites with distinct messages keep their
message text. `styleNotSupported` is the `ValueError` raised by the dead
`else` branch of `Formatter.format`. -/
inductive Err where
  | valueError (msg : String)
  | typeError (msg : String)
  | keyError (key : String)
  | indexError (msg : String)
  | attributeError (attrName : String)
  | notImplementedError (msg : String)
  | styleNotSupported (style : String)
deriving DecidableEq

/-- An exception payload (the `exc_info` of a record, or the argument of
`Logger.exc`). Its rendering (what `sys.print_exception` would write) is
carried as plain text, since traceback rendering is a host primitive. -/
structure ExcInfo where
  text : String
deriving DecidableEq

/-- Modelled from the spec: `sys.print_exception(e, buf)` is an external
MicroPython primitive that renders the traceback/description of `e` into
`buf`; we model the rendered text as carried by the exception value. -/
def printException (e : ExcInfo) : String := e.text

/-- Python `str()` of a value, as used by the `%s` conversion. -/
def pyStr : PyVal → String
  | .str s => s
  | .int n => toString n
  | .noneVal => "None"

/-- Python `repr()` of a scalar value, as used when rendering a tuple. -/
def pyRepr : PyVal → String
  | .str s => "\x27" ++ s ++ "\x27"
  | .int n => toString n
  | .noneVal => "None"

/-- Python `str()` of a tuple of scalars, used for the `args` entry of a
record attribute dictionary. -/
def tupleRepr (vs : List PyVal) : String :=
  match vs with
  | [v] => "(" ++ pyRepr v ++ ",)"
  | _ => "(" ++ String.intercalate ", " (vs.map pyRepr) ++ ")"

def pctChar : Char := '%'
def sChar : Char := 's'
def dChar : Char := 'd'
def lparenChar : Char := Char.ofNat 40
def rparenChar : Char := Char.ofNat 41
def lbraceChar : Char := Char.ofNat 123
def rbraceChar : Char := Char.ofNat 125

def pctStr : String := "%"
def braceStr : String := "\x7b"

/-- Scanner state of `%`-interpolation: scanning literal text, or having
just consumed a `%`. -/
inductive PctMode where
  | text
  | pct
deriving DecidableEq

/-- Positional `%`-interpolation, Python `msg % args` with a tuple operand,
as a one-character-per-step scanner. Faithful subset of the conversions the
module exercises: `%s`, `%d` and the literal `%%`; any other conversion
character raises `ValueError`, missing or surplus arguments raise
`TypeError`, a trailing `%` raises `ValueError`, matching how
CPython/MicroPython classify these failures. -/
def pyModAux : List Char → PctMode → List PyVal → String → Except Err String
  | [], .text, [], acc => .ok acc
  | [], .text, _ :: _, _ =>
    .error (.typeError "not all arguments converted during string formatting")
  | [], .pct, _, _ => .error (.valueError "incomplete format")
  | c :: cs, .text, vals, acc =>
    if c = pctChar then pyModAux cs .pct vals acc
    else pyModAux cs .text vals (acc.push c)
  | c :: cs, .pct, vals, acc =>
    if c = pctChar then pyModAux cs .text vals (acc.push pctChar)
    else if c = sChar then
      match vals with
      | [] => .error (.typeError "not enough arguments for format string")
      | v :: rest => pyModAux cs .text rest (acc ++ pyStr v)
    else if c = dChar then
      match vals with
      | [] => .error (.typeError "not enough arguments for format string")
      | v :: rest =>
        match v with
        | .int n => pyModAux cs .text rest (acc ++ toString n)
        | _ => .error (.typeError "a number is required")
    else .error (.valueError "unsupported format character")

/-- Python `msg % args` on a message template and its argument tuple. -/
def pyMod (msg : String) (vals : List PyVal) : Except Err String :=
  pyModAux msg.data .text vals ""

/-- Scanner deciding whether a template contains a bare `%` conversion
directive, i.e. a `%` that is not part of a `%%` literal (a trailing `%`
counts: it is an incomplete directive). Mirrors the scan of `pyModAux`;
the Bool argument is true when the previous character was an unconsumed
`%`. -/
def hasBareDirective : List Char → Bool → Bool
  | [], sawPct => sawPct
  | c :: cs, false =>
    if c = pctChar then hasBareDirective cs true else hasBareDirective cs false
  | c :: cs, true =>
    if c = pctChar then hasBareDirective cs false else true

/-- String form of `hasBareDirective`. -/
def hasBareConvDirective (s : String) : Bool := hasBareDirective s.data false

/-! Severity level constants and the mutable `_level_dict` table. -/

def CRITICAL : Int := 50
def ERROR : Int := 40
def WARNING : Int := 30
def INFO : Int := 20
def DEBUG : Int := 10
def LLDEBUG : Int := 5
def NOTSET : Int := 0

/-- The shared severity-name table `_level_dict`, passed explicitly.
Lookup takes the first matching entry, so prepending models dict update. -/
def LevelDict : Type := List (Int × String)

/-- Initial contents of `_level_dict`. -/
def defaultLevelDict : LevelDict :=
  [(CRITICAL, "CRITICAL"), (ERROR, "ERROR"), (WARNING, "WARNING"),
   (INFO, "INFO"), (DEBUG, "DEBUG"), (LLDEBUG, "LLDEBUG")]

/-- Source `addLevelName(level, name)`: `_level_dict[level] = name`. -/
def addLevelName (level : Int) (name : String) (d : LevelDict) : LevelDict :=
  (level, name) :: d

/-- Python `a or b` on integers: `a` if it is truthy (nonzero), else `b`.
This is the effective-threshold computation `self.level or _level` used by
both `Logger` and `Handler`. -/
def pyOrInt (a b : Int) : Int := if a = 0 then b else a

/-! The `LogRecord` data holder. -/

/-- One log event. The trailing `message`, `asctime` and `exc_text` fields
model attributes that do not exist until some code assigns them (`none` =
attribute absent); `LogRecord.__init__` sets none of them. -/
structure LogRecord where
  created : Int
  msecs : Int
  name : String
  levelno : Int
  levelname : Option String
  pathname : Option String
  lineno : Option Int
  msg : String
  args : List PyVal
  exc_info : Option ExcInfo
  func : Option String
  sinfo : Option String
  module : String
  message : Option String
  asctime : Option String
  exc_text : Option String
deriving DecidableEq

/-- Source `LogRecord.__init__`. `now` stands for `utime.time()`, which on
MicroPython returns whole seconds, so `msecs = (ct - int(ct)) * 1000 = 0`.
`levelname` is `_level_dict.get(level, None)`. -/
def mkLogRecord (d : LevelDict) (now : Int) (name : String) (level : Int)
    (pathname : Option String) (lineno : Option Int) (msg : String)
    (args : List PyVal) (exc_info : Option ExcInfo) (func : Option String)
    (sinfo : Option String) (module : Option String) : LogRecord :=
  { created := now
    msecs := 0
    name := name
    levelno := level
    levelname := List.lookup level d
    pathname := pathname
    lineno := lineno
    msg := msg
    args := args
    exc_info := exc_info
    func := func
    sinfo := sinfo
    module := module.getD "<?>"
    message := Option.none
    asctime := Option.none
    exc_text := Option.none }

/-- Embedding of an optional string attribute as a Python value. -/
def pyOfOptStr (o : Option String) : PyVal :=
  match o with
  | some s => .str s
  | Option.none => .noneVal

/-- The record attribute dictionary `record.__dict__` used as the operand of
the top-level formatting step; the dynamic attributes contribute entries
only once they have been assigned. -/
def LogRecord.dict (r : LogRecord) : List (String × PyVal) :=
  [("created", .int r.created), ("msecs", .int r.msecs), ("name", .str r.name),
   ("levelno", .int r.levelno), ("levelname", pyOfOptStr r.levelname),
   ("pathname", pyOfOptStr r.pathname),
   ("lineno", match r.lineno with | some n => .int n | Option.none => .noneVal),
   ("msg", .str r.msg), ("args", .str (tupleRepr r.args)),
   ("exc_info", match r.exc_info with | some e => .str e.text | Option.none => .noneVal),
   ("func", pyOfOptStr r.func), ("sinfo", pyOfOptStr r.sinfo),
   ("module", .str r.module)]
  ++ (match r.message with | some m => [("message", PyVal.str m)] | Option.none => [])
  ++ (match r.asctime with | some t => [("asctime", PyVal.str t)] | Option.none => [])
  ++ (match r.exc_text with | some t => [("exc_text", PyVal.str t)] | Option.none => [])

/-! Formatting against an attribute dictionary. -/

/-- Scanner state of keyed `%`-interpolation: literal text, just consumed
a `%`, inside a parenthesised key, or just consumed the closing paren and
expecting the conversion character. -/
inductive MapMode where
  | text
  | pct
  | key (k : String)
  | convKey (k : String)
deriving DecidableEq

/-- Keyed `%`-interpolation, Python `fmt % record.__dict__` with a mapping
operand, as a one-character-per-step scanner: `%(key)s` and `%(key)d`
conversions plus the `%%` literal. A key absent from the mapping raises
`KeyError`; a conversion without a parenthesised key raises `TypeError`
(with a mapping operand such a directive cannot consume a positional
argument). -/
def pyModMapAux (d : List (String × PyVal)) : List Char → MapMode → String → Except Err String
  | [], .text, acc => .ok acc
  | [], .pct, _ => .error (.valueError "incomplete format")
  | [], .key _, _ => .error (.valueError "incomplete format key")
  | [], .convKey _, _ => .error (.valueError "incomplete format")
  | c :: cs, .text, acc =>
    if c = pctChar then pyModMapAux d cs .pct acc
    else pyModMapAux d cs .text (acc.push c)
  | c :: cs, .pct, acc =>
    if c = pctChar then pyModMapAux d cs .text (acc.push pctChar)
    else if c = lparenChar then pyModMapAux d cs (.key "") acc
    else .error (.typeError "format requires a mapping")
  | c :: cs, .key k, acc =>
    if c = rparenChar then pyModMapAux d cs (.convKey k) acc
    else pyModMapAux d cs (.key (k.push c)) acc
  | c :: cs, .convKey k, acc =>
    if c = sChar then
      match List.lookup k d with
      | Option.none => .error (.keyError k)
      | some v => pyModMapAux d cs .text (acc ++ pyStr v)
    else if c = dChar then
      match List.lookup k d with
      | Option.none => .error (.keyError k)
      | some v =>
        match v with
        | .int n => pyModMapAux d cs .text (acc ++ toString n)
        | _ => .error (.typeError "a number is required")
    else .error (.valueError "unsupported format character")

/-- Python `fmt % record.__dict__`. -/
def pyModMap (fmt : String) (d : List (String × PyVal)) : Except Err String :=
  pyModMapAux d fmt.data .text ""

/-- Scanner state of brace-style substitution: literal text, just consumed
an opening brace, just consumed a closing brace, or inside a replacement
field. -/
inductive BraceMode where
  | text
  | afterLb
  | afterRb
  | key (k : String)
deriving DecidableEq

/-- Brace-style replacement-field substitution, the shared core of
`str.format`, as a one-character-per-step scanner: `\x7bkey\x7d` fields
are resolved through `look`, doubled braces are literals, an unmatched
brace raises `ValueError`. No format-spec (`:`) support: such a field is
looked up whole and fails the lookup, a simplification of glue the module
never exercises. -/
def strFormatAux (look : String → Except Err String) : List Char → BraceMode → String → Except Err String
  | [], .text, acc => .ok acc
  | [], .afterLb, _ => .error (.valueError "single brace encountered in format string")
  | [], .afterRb, _ => .error (.valueError "single brace encountered in format string")
  | [], .key _, _ => .error (.valueError "expected brace in format string")
  | c :: cs, .text, acc =>
    if c = lbraceChar then strFormatAux look cs .afterLb acc
    else if c = rbraceChar then strFormatAux look cs .afterRb acc
    else strFormatAux look cs .text (acc.push c)
  | c :: cs, .afterLb, acc =>
    if c = lbraceChar then strFormatAux look cs .text (acc.push lbraceChar)
    else if c = rbraceChar then
      match look "" with
      | .error e => .error e
      | .ok v => strFormatAux look cs .text (acc ++ v)
    else strFormatAux look cs (.key (String.singleton c)) acc
  | c :: cs, .afterRb, acc =>
    if c = rbraceChar then strFormatAux look cs .text (acc.push rbraceChar)
    else .error (.valueError "single brace encountered in format string")
  | c :: cs, .key k, acc =>
    if c = rbraceChar then
      match look k with
      | .error e => .error e
      | .ok v => strFormatAux look cs .text (acc ++ v)
    else strFormatAux look cs (.key (k.push c)) acc

/-- Keyed lookup into an attribute dictionary, rendering via `str()`:
the resolution used by `self.fmt.format(**record.__dict__)`. Numeric keys
raise `IndexError` (no positional arguments are supplied there). -/
def dictLook (d : List (String × PyVal)) (key : String) : Except Err String :=
  match List.lookup key d with
  | some v => .ok (pyStr v)
  | Option.none =>
    match key.toNat? with
    | some _ => .error (.indexError "replacement index out of range")
    | Option.none => .error (.keyError key)

/-- Python `fmt.format(**record.__dict__)`. -/
def strFormat (fmt : String) (d : List (String × PyVal)) : Except Err String :=
  strFormatAux (dictLook d) fmt.data .text ""

/-- Positional lookup used by `datefmt.format(*ct)`: a decimal key indexes
the time tuple, an out-of-range index raises `IndexError`, a non-numeric
key raises `KeyError`. -/
def posLook (vals : List Int) (key : String) : Except Err String :=
  match key.toNat? with
  | some i =>
    match vals.get? i with
    | some v => .ok (toString v)
    | Option.none => .error (.indexError "replacement index out of range")
  | Option.none => .error (.keyError key)

/-- Python `datefmt.format(*ct)` on the broken-down time tuple. -/
def strFormatPos (fmt : String) (vals : List Int) : Except Err String :=
  strFormatAux (posLook vals) fmt.data .text ""

/-! The Formatter. -/

/-- Modelled from the spec: `utime.localtime` is a MicroPython host
primitive returning the 8-tuple (year, month, mday, hour, minute, second,
weekday, yearday). Its calendar arithmetic lives outside the repository; no
claim depends on the values, only on whether the conversion function is
invoked, so a simple epoch-based breakdown stands in for it. -/
def localtime (t : Int) : List Int :=
  [2000 + t / 31536000, 1, 1 + (t % 31536000) / 86400,
   (t % 86400) / 3600, (t % 3600) / 60, t % 60, 0, 0]

/-- A rendering strategy. `formatExc` models the dynamic dispatch of
`formatException`: `none` is the base class, whose `formatException` raises
`NotImplementedError`; `some f` is a subclass override returning a string. -/
structure Formatter where
  fmt : String
  datefmt : String
  converter : Int → List Int
  style : String
  formatExc : Option (ExcInfo → String)

/-- The `Formatter` produced by `Formatter()` with all defaults. -/
def Formatter.default : Formatter :=
  { fmt := "%(message)s"
    datefmt := "{0}-{1}-{2} {3}:{4}:{5}"
    converter := localtime
    style := pctStr
    formatExc := Option.none }

/-- Source `Formatter.__init__`: applies the `or`-defaults for `fmt`,
`datefmt` and `converter`, and raises
`ValueError("Style must be one of: %, \x7b")` for any other style tag. -/
def Formatter.init (fmt datefmt : Option String) (style : String)
    (converter : Option (Int → List Int)) : Except Err Formatter :=
  if style = pctStr ∨ style = braceStr then
    .ok { fmt := fmt.getD "%(message)s"
          datefmt := datefmt.getD "{0}-{1}-{2} {3}:{4}:{5}"
          converter := converter.getD localtime
          style := style
          formatExc := Option.none }
  else .error (.valueError "Style must be one of: %, \x7b")

/-- Python `needle in hay` on strings: substring containment. -/
def listContainsSub (needle : List Char) : List Char → Bool
  | [] => needle.isEmpty
  | c :: cs => List.isPrefixOf needle (c :: cs) || listContainsSub needle cs

/-- Source `Formatter.usesTime`: a substring test per style. For a style
that is neither tag the source falls off the end and returns `None`, which
is falsy where the result is used; we return `false` there. -/
def Formatter.usesTime (f : Formatter) : Bool :=
  if f.style = pctStr then listContainsSub "%(asctime)".data f.fmt.data
  else if f.style = braceStr then listContainsSub "\x7basctime".data f.fmt.data
  else false

/-- Source `Formatter.formatTime`: `self.converter(record.created)` then
`datefmt.format(*ct)`. -/
def Formatter.formatTime (f : Formatter) (r : LogRecord) (datefmt : String) :
    Except Err String :=
  strFormatPos datefmt (f.converter r.created)

/-- Final step of `Formatter.format`: the record attribute dictionary is
the operand of a formatting operation selected by style; the `else` branch
is the format-time style error the source keeps after the constructor
check. -/
def styleStep (f : Formatter) (r : LogRecord) : Except Err (String × LogRecord) :=
  if f.style = pctStr then
    match pyModMap f.fmt r.dict with
    | .error e => .error e
    | .ok out => .ok (out, r)
  else if f.style = braceStr then
    match strFormat f.fmt r.dict with
    | .error e => .error e
    | .ok out => .ok (out, r)
  else .error (.styleNotSupported f.style)

/-- Source `Formatter.format`. Returns the rendered string together with
the record as mutated (its `message`, `asctime`, `exc_text` attributes),
paired with the number of times `self.converter` was invoked during the
call (the observation claim C9 is about). Steps, in source order:
message interpolation, optional `asctime` computation, exception-text
appending (note the `record.exc_text +=` augmented assignment reads
`exc_text` before anything ever assigns it, so a record fresh from
`LogRecord.__init__` raises `AttributeError` here), then the style-directed
dictionary substitution. -/
def Formatter.format (f : Formatter) (record : LogRecord) :
    Except Err (String × LogRecord) × Nat :=
  match pyMod record.msg record.args with
  | .error e => (.error e, 0)
  | .ok m =>
    let r1 : LogRecord := { record with message := some m }
    let step2 : Except Err LogRecord × Nat :=
      if f.usesTime then
        match f.formatTime r1 f.datefmt with
        | .error e => (.error e, 1)
        | .ok t => (.ok { r1 with asctime := some t }, 1)
      else (.ok r1, 0)
    match step2 with
    | (.error e, n) => (.error e, n)
    | (.ok r2, n) =>
      match r2.exc_info with
      | Option.none => (styleStep f r2, n)
      | some ei =>
        match r2.exc_text with
        | Option.none => (.error (.attributeError "exc_text"), n)
        | some told =>
          match f.formatExc with
          | Option.none => (.error (.notImplementedError "formatException"), n)
          | some fe =>
            let et := told ++ fe ei
            let r3 : LogRecord :=
              { r2 with exc_text := some et, message := some (m ++ "\n" ++ et) }
            (styleStep f r3, n)

/-! Handlers and their sinks. -/

/-- An already-open writable text stream; `StreamHandler()` defaults to
`sys.stderr`. -/
inductive StreamRef where
  | stderr
  | named (id : Nat)
deriving DecidableEq

/-- The sink a handler writes to. `baseSink` is the abstract base
`Handler`, whose `emit` raises. -/
inductive Sink where
  | baseSink
  | streamSink (s : StreamRef)
  | fileSink (filename : String) (mode : String)
  | udpSink (addr : String) (port : Int)
deriving DecidableEq

/-- Observable side effects of an emission. -/
inductive Event where
  | write (s : Sink) (text : String)
  | flush (s : Sink)
deriving DecidableEq

/-- A handler: its threshold, formatter, line terminator and sink. All the
concrete subclasses set `terminator = "\n"`; the base class has no
terminator attribute but also never reaches a use of it. -/
structure Handler where
  sink : Sink
  formatter : Formatter
  level : Int
  terminator : String

/-- Source `Handler.__init__(formatter=None, level=NOTSET)` for the base
class: `self.formatter = formatter or Formatter()`. -/
def Handler.base (formatter : Option Formatter) (level : Int) : Handler :=
  { sink := .baseSink
    formatter := formatter.getD Formatter.default
    level := level
    terminator := "\n" }

/-- Source `StreamHandler.__init__`: `stream or sys.stderr`. -/
def StreamHandler.init (stream : Option StreamRef) (formatter : Option Formatter)
    (level : Int) : Handler :=
  { sink := .streamSink (stream.getD .stderr)
    formatter := formatter.getD Formatter.default
    level := level
    terminator := "\n" }

/-- Source `Handler.emit`, resolved per sink. The base class raises
`NotImplementedError` (the source concatenates two adjacent string
literals without a space, reproduced verbatim). Stream: one write of the
formatted record plus terminator. File: the same write followed by the
per-emission flush. Datagram: one best-effort send, recorded as a write.
The file-handle lazy-open bookkeeping is unmodelled I/O glue. -/
def Handler.emit (h : Handler) (r : LogRecord) : Except Err (List Event) :=
  match h.sink with
  | .baseSink => .error (.notImplementedError "emit must be implementedby Handler subclasses")
  | .streamSink s =>
    match (h.formatter.format r).1 with
    | .error e => .error e
    | .ok p => .ok [.write (.streamSink s) (p.1 ++ h.terminator)]
  | .fileSink fn mode =>
    match (h.formatter.format r).1 with
    | .error e => .error e
    | .ok p => .ok [.write (.fileSink fn mode) (p.1 ++ h.terminator), .flush (.fileSink fn mode)]
  | .udpSink a p =>
    match (h.formatter.format r).1 with
    | .error e => .error e
    | .ok q => .ok [.write (.udpSink a p) (q.1 ++ h.terminator)]

/-- Source `Handler.handle`: emit iff the record passes the handler's own
effective threshold `self.level or _level` (`g` is the global `_level`);
otherwise do nothing. It never consults the logger the record came from. -/
def Handler.handle (g : Int) (h : Handler) (r : LogRecord) : Except Err (List Event) :=
  if r.levelno ≥ pyOrInt h.level g then h.emit r else .ok []

/-! The Logger. -/

/-- A named event source. `handlers = none` models the `None` the
constructor stores before the first `addHandler` call. -/
structure Logger where
  name : String
  level : Int
  handlers : Option (List Handler)

/-- Source `Logger.addHandler`: lazily create the list, then append. -/
def Logger.addHandler (L : Logger) (h : Handler) : Logger :=
  match L.handlers with
  | Option.none => { L with handlers := some [h] }
  | some hs => { L with handlers := some (hs ++ [h]) }

/-- Source `Logger.setLevel`. -/
def Logger.setLevel (L : Logger) (level : Int) : Logger := { L with level := level }

/-- Source `Logger.isEnabledFor`: `level >= (self.level or _level)`. -/
def Logger.isEnabledFor (g : Int) (L : Logger) (level : Int) : Bool :=
  level ≥ pyOrInt L.level g

/-- Source `Logger._level_str`: the registered name for a severity, else
the synthesized `"LVL%s" % level` label. -/
def Logger.levelStr (d : LevelDict) (level : Int) : String :=
  match List.lookup level d with
  | some s => s
  | Option.none => "LVL" ++ toString level

/-- The `for hdlr in self.handlers: hdlr.handle(record)` fan-out loop.
Handlers run in list order; an exception from `handle` propagates, so the
loop stops there: events already written stay written, later handlers are
never reached. -/
def runHandlers (g : Int) (r : LogRecord) : List Handler → List Event × Option Err
  | [] => ([], Option.none)
  | h :: rest =>
    match h.handle g r with
    | .error e => ([], some e)
    | .ok evs =>
      let p := runHandlers g r rest
      (evs ++ p.1, p.2)

/-- Source `Logger.log`: the threshold short-circuit, then record
construction, then the fan-out. Returns the record that was constructed
(if any) and the events written together with the exception the call
raised (if any). `if self.handlers:` treats both `None` and `[]` as
"skip the loop", which coincides with looping over nothing. -/
def Logger.log (g : Int) (d : LevelDict) (L : Logger) (level : Int) (msg : String)
    (args : List PyVal) (module : Option String) (now : Int) :
    Option LogRecord × (List Event × Option Err) :=
  if level ≥ pyOrInt L.level g then
    let record := mkLogRecord d now L.name level Option.none Option.none msg args
      Option.none Option.none Option.none module
    (some record,
      match L.handlers with
      | Option.none => ([], Option.none)
      | some hs => runHandlers g record hs)
  else (Option.none, ([], Option.none))

/-- Source `Logger.lldebug`. -/
def Logger.lldebug (g : Int) (d : LevelDict) (L : Logger) (msg : String)
    (args : List PyVal) (module : Option String) (now : Int) :=
  Logger.log g d L LLDEBUG msg args module now

/-- Source `Logger.debug`. -/
def Logger.debug (g : Int) (d : LevelDict) (L : Logger) (msg : String)
    (args : List PyVal) (module : Option String) (now : Int) :=
  Logger.log g d L DEBUG msg args module now

/-- Source `Logger.info`. -/
def Logger.info (g : Int) (d : LevelDict) (L : Logger) (msg : String)
    (args : List PyVal) (module : Option String) (now : Int) :=
  Logger.log g d L INFO msg args module now

/-- Source `Logger.warning` (also aliased as `warn`). -/
def Logger.warning (g : Int) (d : LevelDict) (L : Logger) (msg : String)
    (args : List PyVal) (module : Option String) (now : Int) :=
  Logger.log g d L WARNING msg args module now

/-- Source `Logger.error`. -/
def Logger.error (g : Int) (d : LevelDict) (L : Logger) (msg : String)
    (args : List PyVal) (module : Option String) (now : Int) :=
  Logger.log g d L ERROR msg args module now

/-- Source `Logger.critical`. -/
def Logger.critical (g : Int) (d : LevelDict) (L : Logger) (msg : String)
    (args : List PyVal) (module : Option String) (now : Int) :=
  Logger.log g d L CRITICAL msg args module now

/-- Source `Logger.exc`: renders the error value with
`sys.print_exception` and logs `msg + "\n" + rendering` at ERROR. -/
def Logger.exc (g : Int) (d : LevelDict) (L : Logger) (e : ExcInfo) (msg : String)
    (args : List PyVal) (module : Option String) (now : Int) :=
  Logger.log g d L ERROR (msg ++ "\n" ++ printException e) args module now

/-- Source `Logger.exception`: `self.exc(sys.exc_info()[1], ...)`; the
ambient currently-handled exception is passed explicitly. -/
def Logger.exception (g : Int) (d : LevelDict) (L : Logger) (ambient : ExcInfo)
    (msg : String) (args : List PyVal) (module : Option String) (now : Int) :=
  Logger.exc g d L ambient msg args module now

/-! The process-wide registry and the module-level convenience functions. -/

/-- The process-wide mutable globals: `_level`, `_level_dict` and
`_loggers` (an insertion map modelled as an association list; entries are
only ever added for names not yet present, so prepending is faithful). -/
structure RegState where
  level : Int
  levelDict : LevelDict
  loggers : List (String × Logger)

/-- Source `getLogger(name=None)`: `None` means `"root"`; return the cached
instance if present; otherwise create one (the root logger pre-wired with
one default `StreamHandler` carrying a default `Formatter`, any other name
with no handlers), register it, and return it. -/
def getLogger (name : Option String) (s : RegState) : Logger × RegState :=
  let n := match name with
    | Option.none => "root"
    | some x => x
  match List.lookup n s.loggers with
  | some l => (l, s)
  | Option.none =>
    let l : Logger :=
      if n = "root" then
        Logger.addHandler (Logger.mk n 0 Option.none)
          { (StreamHandler.init Option.none Option.none 0) with formatter := Formatter.default }
      else Logger.mk n 0 Option.none
    (l, { s with loggers := (n, l) :: s.loggers })

/-- The module state after import: `_level = INFO`, the default severity
table, and `root = getLogger()` already executed. -/
def initState : RegState :=
  (getLogger Option.none { level := INFO, levelDict := defaultLevelDict, loggers := [] }).2

/-- The pre-wired root logger value the import leaves behind. -/
def rootLogger : Logger :=
  (getLogger Option.none { level := INFO, levelDict := defaultLevelDict, loggers := [] }).1

/-- Result type of a module-level logging call: the updated registry plus
what the underlying `Logger.log` produced. -/
def ModOut : Type := RegState × (Option LogRecord × (List Event × Option Err))

/-- Source module-level `info(msg, *args, module=None)`. -/
def info (s : RegState) (msg : String) (args : List PyVal) (module : Option String)
    (now : Int) : ModOut :=
  let p := getLogger Option.none s
  (p.2, Logger.info p.2.level p.2.levelDict p.1 msg args module now)

/-- Source module-level `debug(msg, *args, module=None)`. -/
def debug (s : RegState) (msg : String) (args : List PyVal) (module : Option String)
    (now : Int) : ModOut :=
  let p := getLogger Option.none s
  (p.2, Logger.debug p.2.level p.2.levelDict p.1 msg args module now)

/-- Source module-level `warning(msg, *args)` (no module parameter, so the
method default `module=None` applies). -/
def warning (s : RegState) (msg : String) (args : List PyVal) (now : Int) : ModOut :=
  let p := getLogger Option.none s
  (p.2, Logger.warning p.2.level p.2.levelDict p.1 msg args Option.none now)

/-- Source module-level `error(msg, *args)`. -/
def error (s : RegState) (msg : String) (args : List PyVal) (now : Int) : ModOut :=
  let p := getLogger Option.none s
  (p.2, Logger.error p.2.level p.2.levelDict p.1 msg args Option.none now)

/-- Source module-level `critical(msg, *args)`. -/
def critical (s : RegState) (msg : String) (args : List PyVal) (now : Int) : ModOut :=
  let p := getLogger Option.none s
  (p.2, Logger.critical p.2.level p.2.levelDict p.1 msg args Option.none now)

/-- Source module-level `exception(msg, *args)`; the ambient exception is
explicit, as in `Logger.exception`. -/
def exception (s : RegState) (ambient : ExcInfo) (msg : String) (args : List PyVal)
    (now : Int) : ModOut :=
  let p := getLogger Option.none s
  (p.2, Logger.exception p.2.level p.2.levelDict p.1 ambient msg args Option.none now)

/-- Classifier for the format-time style error (claim C8 is about whether
it can ever be raised after a successful construction). -/
def Err.isStyleErr : Err → Bool
  | .styleNotSupported _ => true
  | _ => false

/-- Success test for an interpolation result (true iff Python raised no
exception computing `msg % args`), the observation claims C9 and C10 need. -/
def okB {a : Type} : Except Err a → Bool
  | .ok _ => true
  | .error _ => false

/-! Theorems. -/

/-- Helper: an emission is never a silent no-op — it either raises or
records at least one sink event. Distinguishes "emit was invoked" from
"handle filtered the record out". -/
theorem Handler.emit_ne_ok_nil (h : Handler) (r : LogRecord) : h.emit r ≠ .ok [] := by
  unfold Handler.emit
  cases hs : h.sink <;> simp
  all_goals cases hf : (h.formatter.format r).1 <;> simp

/-- C1: `Logger.log(s, ...)` constructs a LogRecord and dispatches it to
the attached handlers if and only if `s >= effective_threshold(L)` (own
level if nonzero, else the global default, i.e. `isEnabledFor`); below the
threshold no record is constructed and no handler is consulted (the result
is the same whatever the handler list holds). -/
theorem log_gates_on_effective_threshold (g : Int) (d : LevelDict) (L : Logger)
    (level : Int) (msg : String) (args : List PyVal) (module : Option String) (now : Int) :
    ((Logger.log g d L level msg args module now).1.isSome ↔ Logger.isEnabledFor g L level = true)
    ∧ (Logger.isEnabledFor g L level = true →
        Logger.log g d L level msg args module now =
          (some (mkLogRecord d now L.name level Option.none Option.none msg args
              Option.none Option.none Option.none module),
            match L.handlers with
            | Option.none => ([], Option.none)
            | some hs => runHandlers g (mkLogRecord d now L.name level Option.none Option.none
                msg args Option.none Option.none Option.none module) hs))
    ∧ (Logger.isEnabledFor g L level = false →
        ∀ hs : Option (List Handler),
          Logger.log g d { L with handlers := hs } level msg args module now =
            (Option.none, ([], Option.none)))
    ∧ (Logger.isEnabledFor g L level = true ↔ level ≥ pyOrInt L.level g) := by
  unfold Logger.log Logger.isEnabledFor
  by_cases hcond : level ≥ pyOrInt L.level g <;> simp [hcond]

/-- Witness for C1 at concrete inputs: an INFO event against the default
INFO threshold is dispatched; a DEBUG event is filtered with no record. -/
theorem log_gates_on_effective_threshold_witness :
    (Logger.log 20 defaultLevelDict (Logger.mk "svc" 0 (some [])) 20 "hi" [] Option.none 0 =
      (some (mkLogRecord defaultLevelDict 0 "svc" 20 Option.none Option.none "hi" []
          Option.none Option.none Option.none Option.none),
        runHandlers 20 (mkLogRecord defaultLevelDict 0 "svc" 20 Option.none Option.none "hi" []
          Option.none Option.none Option.none Option.none) []))
    ∧ (Logger.log 20 defaultLevelDict (Logger.mk "svc" 0 (some [])) 10 "hi" [] Option.none 0 =
        (Option.none, ([], Option.none))) := by
  constructor
  · exact (log_gates_on_effective_threshold 20 defaultLevelDict
      (Logger.mk "svc" 0 (some [])) 20 "hi" [] Option.none 0).2.1 (by decide)
  · exact (log_gates_on_effective_threshold 20 defaultLevelDict
      (Logger.mk "svc" 0 (some [])) 10 "hi" [] Option.none 0).2.2.1 (by decide) (some [])

/-- C2: `Handler.handle(r)` invokes `emit` exactly when
`r.levelno >= effective_threshold(H)` (own level if nonzero, else the
global default) and is a no-op otherwise; the third conjunct separates the
two outcomes observationally (an invoked emit never yields a silent empty
success), and the statement quantifies over arbitrary records, independent
of any logger-side filtering. -/
theorem handle_gates_on_effective_threshold (g : Int) (h : Handler) (r : LogRecord) :
    (r.levelno ≥ pyOrInt h.level g → Handler.handle g h r = h.emit r)
    ∧ (r.levelno < pyOrInt h.level g → Handler.handle g h r = .ok [])
    ∧ (Handler.handle g h r = .ok [] ↔ r.levelno < pyOrInt h.level g) := by
  unfold Handler.handle
  by_cases hcond : r.levelno ≥ pyOrInt h.level g
  · simp [hcond, Handler.emit_ne_ok_nil h r]
    try omega
  · simp [hcond]
    try omega

/-- Witness for C2 at concrete inputs: a WARNING record passes a handler
with the default threshold, a DEBUG record is dropped. -/
theorem handle_gates_on_effective_threshold_witness :
    (Handler.handle 20 (StreamHandler.init Option.none Option.none 0)
        (mkLogRecord defaultLevelDict 0 "svc" 30 Option.none Option.none "w" []
          Option.none Option.none Option.none Option.none) =
      Handler.emit (StreamHandler.init Option.none Option.none 0)
        (mkLogRecord defaultLevelDict 0 "svc" 30 Option.none Option.none "w" []
          Option.none Option.none Option.none Option.none))
    ∧ (Handler.handle 20 (StreamHandler.init Option.none Option.none 0)
        (mkLogRecord defaultLevelDict 0 "svc" 10 Option.none Option.none "dbg" []
          Option.none Option.none Option.none Option.none) = .ok []) := by
  constructor
  · exact (handle_gates_on_effective_threshold 20 (StreamHandler.init Option.none Option.none 0)
      (mkLogRecord defaultLevelDict 0 "svc" 30 Option.none Option.none "w" []
        Option.none Option.none Option.none Option.none)).1 (by decide)
  · exact (handle_gates_on_effective_threshold 20 (StreamHandler.init Option.none Option.none 0)
      (mkLogRecord defaultLevelDict 0 "svc" 10 Option.none Option.none "dbg" []
        Option.none Option.none Option.none Option.none)).2.1 (by decide)

/-- C3 counterexample: the fan-out loop has no per-handler isolation. A
logger with a base `Handler` (whose `emit` raises `NotImplementedError`)
followed by a `StreamHandler` delivers nothing at all on an accepted INFO
event — the stream handler is never reached — although the stream handler
alone would have written the line. So an error in one handler does prevent
dispatch to the subsequent handlers. -/
theorem log_error_stops_fanout_counterexample :
    (Logger.log 20 defaultLevelDict
        (Logger.mk "svc" 0 (some [Handler.base Option.none 0, StreamHandler.init Option.none Option.none 0]))
        20 "hi" [] Option.none 0).2 =
      ([], some (Err.notImplementedError "emit must be implementedby Handler subclasses"))
    ∧ (Logger.log 20 defaultLevelDict
        (Logger.mk "svc" 0 (some [StreamHandler.init Option.none Option.none 0]))
        20 "hi" [] Option.none 0).2 =
      ([.write (.streamSink .stderr) "hi\n"], Option.none) := by
  exact ⟨rfl, rfl⟩

/-- C3 amended: an accepted event is dispatched to the attached handlers
in attachment order, but an error raised by a handler propagates out of
the fan-out loop immediately: no event is delivered to, and no work is done
for, any handler after the failing one (the outcome does not depend on what
follows it in the list). -/
theorem log_fanout_in_order_until_first_error (g : Int) (d : LevelDict)
    (name : String) (lvl level : Int) (msg : String) (args : List PyVal)
    (module : Option String) (now : Int) (h1 : Handler)
    (henab : level ≥ pyOrInt lvl g) :
    (∀ e : Err,
      Handler.handle g h1 (mkLogRecord d now name level Option.none Option.none msg args
        Option.none Option.none Option.none module) = .error e →
      ∀ rest : List Handler,
        Logger.log g d (Logger.mk name lvl (some (h1 :: rest))) level msg args module now =
          (some (mkLogRecord d now name level Option.none Option.none msg args
            Option.none Option.none Option.none module), ([], some e)))
    ∧ (∀ evs : List Event,
      Handler.handle g h1 (mkLogRecord d now name level Option.none Option.none msg args
        Option.none Option.none Option.none module) = .ok evs →
      ∀ rest : List Handler,
        Logger.log g d (Logger.mk name lvl (some (h1 :: rest))) level msg args module now =
          (some (mkLogRecord d now name level Option.none Option.none msg args
            Option.none Option.none Option.none module),
            (evs ++ (runHandlers g (mkLogRecord d now name level Option.none Option.none msg args
              Option.none Option.none Option.none module) rest).1,
             (runHandlers g (mkLogRecord d now name level Option.none Option.none msg args
              Option.none Option.none Option.none module) rest).2))) := by
  constructor
  · intro e herr rest
    simp [Logger.log, henab, runHandlers, herr]
  · intro evs hok rest
    simp [Logger.log, henab, runHandlers, hok]

/-- Witness for the amended C3: the concrete failing base handler aborts
the fan-out before a following stream handler. -/
theorem log_fanout_in_order_until_first_error_witness :
    Logger.log 20 defaultLevelDict
        (Logger.mk "svc" 0 (some [Handler.base Option.none 0, StreamHandler.init Option.none Option.none 0]))
        20 "hi" [] Option.none 0 =
      (some (mkLogRecord defaultLevelDict 0 "svc" 20 Option.none Option.none "hi" []
        Option.none Option.none Option.none Option.none),
        ([], some (Err.notImplementedError "emit must be implementedby Handler subclasses"))) := by
  exact (log_fanout_in_order_until_first_error 20 defaultLevelDict "svc" 0 20 "hi" []
      Option.none 0 (Handler.base Option.none 0) (by decide)).1
    (Err.notImplementedError "emit must be implementedby Handler subclasses") rfl
    [StreamHandler.init Option.none Option.none 0]

/-- C4: `getLogger` is idempotent — a repeated call with the same name
returns the very logger the registry stored, with the registry unchanged;
an absent name means the root logger; after import the root logger is
pre-wired with exactly one default stream handler carrying a default
formatter; a freshly created non-root logger has no handlers. -/
theorem getLogger_idempotent_and_prewired_root :
    (∀ (name : Option String) (s : RegState),
      getLogger name ((getLogger name s).2) = getLogger name s)
    ∧ (∀ s : RegState, getLogger Option.none s = getLogger (some "root") s)
    ∧ (getLogger Option.none initState).1 = rootLogger
    ∧ rootLogger.handlers = some [({ sink := Sink.streamSink StreamRef.stderr, formatter := Formatter.default, level := 0, terminator := "\n" } : Handler)]
    ∧ (∀ (n : String) (s : RegState), List.lookup n s.loggers = Option.none → n ≠ "root" →
        (getLogger (some n) s).1.name = n
        ∧ (getLogger (some n) s).1.handlers = Option.none) := by
  refine ⟨?_, ?_, rfl, rfl, ?_⟩
  · intro name s
    cases name with
    | none =>
      simp only [getLogger]
      cases hl : List.lookup "root" s.loggers with
      | some l => simp [hl]
      | none => simp [hl, List.lookup]
    | some x =>
      simp only [getLogger]
      cases hl : List.lookup x s.loggers with
      | some l => simp [hl]
      | none => simp [hl, List.lookup]
  · intro s
    simp only [getLogger]
  · intro n s hl hne
    simp [getLogger, hl, hne]

/-- Witness for C4: the fresh non-root logger `"a"` created against the
post-import registry is named `"a"` and starts with no handlers. -/
theorem getLogger_idempotent_and_prewired_root_witness :
    (getLogger (some "a") initState).1.name = "a"
    ∧ (getLogger (some "a") initState).1.handlers = Option.none := by
  exact getLogger_idempotent_and_prewired_root.2.2.2.2 "a" initState rfl (by decide)

/-- C5 counterexample: `Logger._level_str` does synthesize `"LVL25"` for
the unregistered severity 25, but a LogRecord constructed at that severity
carries `None` as its level name (`_level_dict.get(level, None)`), not the
synthesized label, and a `%(levelname)s` format renders it as `"None"`. -/
theorem record_levelname_counterexample :
    Logger.levelStr defaultLevelDict 25 = "LVL25"
    ∧ (mkLogRecord defaultLevelDict 0 "svc" 25 Option.none Option.none "m" []
        Option.none Option.none Option.none Option.none).levelname = Option.none
    ∧ (Option.none : Option String) ≠ some "LVL25"
    ∧ (Formatter.format { Formatter.default with fmt := "%(levelname)s" }
        (mkLogRecord defaultLevelDict 0 "svc" 25 Option.none Option.none "m" []
          Option.none Option.none Option.none Option.none)).1 =
      .ok ("None", { mkLogRecord defaultLevelDict 0 "svc" 25 Option.none Option.none "m" []
          Option.none Option.none Option.none Option.none with message := some "m" }) := by
  exact ⟨rfl, rfl, by simp, rfl⟩

/-- C5 amended: `Logger._level_str` returns the registered name for a
severity and otherwise the synthesized `"LVL<value>"` label, and never
fails; a LogRecord, however, stores `_level_dict.get(level, None)` as its
`levelname` — the registered name, or `None` (not the synthesized label)
when the integer severity is unregistered. -/
theorem levelStr_synthesizes_but_record_stores_lookup (d : LevelDict) (level : Int) :
    Logger.levelStr d level = (List.lookup level d).getD ("LVL" ++ toString level)
    ∧ (∀ (now : Int) (name msg : String) (args : List PyVal) (module : Option String),
        (mkLogRecord d now name level Option.none Option.none msg args
          Option.none Option.none Option.none module).levelname = List.lookup level d) := by
  constructor
  · unfold Logger.levelStr
    cases List.lookup level d <;> simp
  · intro now name msg args module
    rfl

/-- C6 (code defect): on a record whose `exc_info` is present,
`Formatter.format` raises `AttributeError` at `record.exc_text += ...`,
because `LogRecord.__init__` never initializes `exc_text`, and the
augmented assignment reads the attribute before the right-hand side runs.
This happens whether `formatException` is overridden (first conjunct: an
override returning a string is never consulted) or left unimplemented
(second conjunct: the loud failure is the `AttributeError`, not the
`NotImplementedError` the base `formatException` would raise). -/
theorem format_exc_info_attribute_error :
    (Formatter.format { Formatter.default with formatExc := some (fun e => e.text) }
        (mkLogRecord defaultLevelDict 0 "svc" 40 Option.none Option.none "boom" []
          (some { text := "TB" }) Option.none Option.none Option.none)).1 =
      .error (.attributeError "exc_text")
    ∧ (Formatter.format Formatter.default
        (mkLogRecord defaultLevelDict 0 "svc" 40 Option.none Option.none "boom" []
          (some { text := "TB" }) Option.none Option.none Option.none)).1 =
      .error (.attributeError "exc_text") := by
  exact ⟨rfl, rfl⟩

/-- C7: each module-level convenience function delegates to the same-named
method of the registered root logger with the same message and positional
arguments (and the method-default `module=None` where the module-level
function takes no module parameter), leaving the registry untouched. -/
theorem module_functions_delegate_to_root (s : RegState) (rl : Logger)
    (hroot : List.lookup "root" s.loggers = some rl)
    (msg : String) (args : List PyVal) (module : Option String) (ambient : ExcInfo)
    (now : Int) :
    info s msg args module now = (s, Logger.info s.level s.levelDict rl msg args module now)
    ∧ debug s msg args module now = (s, Logger.debug s.level s.levelDict rl msg args module now)
    ∧ warning s msg args now = (s, Logger.warning s.level s.levelDict rl msg args Option.none now)
    ∧ error s msg args now = (s, Logger.error s.level s.levelDict rl msg args Option.none now)
    ∧ critical s msg args now = (s, Logger.critical s.level s.levelDict rl msg args Option.none now)
    ∧ exception s ambient msg args now =
        (s, Logger.exception s.level s.levelDict rl ambient msg args Option.none now) := by
  unfold info debug warning error critical exception getLogger
  simp [hroot]

/-- Witness for C7 against the post-import registry, whose root entry is
the pre-wired root logger. -/
theorem module_functions_delegate_to_root_witness :
    info initState "m" [] Option.none 0 =
      (initState, Logger.info initState.level initState.levelDict rootLogger "m" [] Option.none 0) :=
  (module_functions_delegate_to_root initState rootLogger rfl "m" [] Option.none
    { text := "TB" } 0).1

/-- Helper: positional interpolation never raises the format-time style
error. -/
theorem pyModAux_not_styleErr (cs : List Char) :
    ∀ (mode : PctMode) (vals : List PyVal) (acc : String) (e : Err),
      pyModAux cs mode vals acc = .error e → e.isStyleErr = false := by
  induction cs with
  | nil =>
    intro mode vals acc e he
    cases mode <;> cases vals <;> simp [pyModAux] at he <;> (subst he; rfl)
  | cons c cs ih =>
    intro mode vals acc e he
    cases mode <;> simp only [pyModAux] at he <;> (repeat' split at he) <;>
      first
        | (exact ih _ _ _ _ he)
        | (simp at he; subst he; rfl)
        | (simp at he)

/-- Helper: keyed interpolation never raises the format-time style error. -/
theorem pyModMapAux_not_styleErr (d : List (String × PyVal)) (cs : List Char) :
    ∀ (mode : MapMode) (acc : String) (e : Err),
      pyModMapAux d cs mode acc = .error e → e.isStyleErr = false := by
  induction cs with
  | nil =>
    intro mode acc e he
    cases mode <;> simp [pyModMapAux] at he <;> (subst he; rfl)
  | cons c cs ih =>
    intro mode acc e he
    cases mode <;> simp only [pyModMapAux] at he <;> (repeat' split at he) <;>
      first
        | (exact ih _ _ _ he)
        | (simp at he; subst he; rfl)
        | (simp at he)

/-- Helper: positional brace lookup never raises the format-time style
error. -/
theorem posLook_not_styleErr (vals : List Int) (k : String) :
    ∀ e : Err, posLook vals k = .error e → e.isStyleErr = false := by
  intro e he
  unfold posLook at he
  repeat' split at he
  all_goals simp at he
  all_goals (subst he; rfl)

/-- Helper: attribute-dictionary brace lookup never raises the format-time
style error. -/
theorem dictLook_not_styleErr (d : List (String × PyVal)) (k : String) :
    ∀ e : Err, dictLook d k = .error e → e.isStyleErr = false := by
  intro e he
  unfold dictLook at he
  repeat' split at he
  all_goals simp at he
  all_goals (subst he; rfl)

/-- Helper: brace substitution never raises the format-time style error
when its lookup function does not. -/
theorem strFormatAux_not_styleErr (look : String → Except Err String)
    (hlook : ∀ k e, look k = Except.error e → e.isStyleErr = false)
    (cs : List Char) :
    ∀ (mode : BraceMode) (acc : String) (e : Err),
      strFormatAux look cs mode acc = .error e → e.isStyleErr = false := by
  induction cs with
  | nil =>
    intro mode acc e he
    cases mode <;> simp [strFormatAux] at he <;> (subst he; rfl)
  | cons c cs ih =>
    intro mode acc e he
    cases mode <;> simp only [strFormatAux] at he <;> (repeat' split at he) <;>
      first
        | (exact ih _ _ _ he)
        | (simp at he; subst he; rfl)
        | (simp at he; subst he; exact hlook _ _ (by assumption))
        | (simp at he)

/-- Helper: the wrapped keyed interpolation never raises the format-time
style error. -/
theorem pyModMap_not_styleErr (fmt : String) (d : List (String × PyVal)) :
    ∀ e : Err, pyModMap fmt d = .error e → e.isStyleErr = false := by
  intro e he
  unfold pyModMap at he
  exact pyModMapAux_not_styleErr d fmt.data .text "" e he

/-- Helper: the wrapped brace substitution never raises the format-time
style error. -/
theorem strFormat_not_styleErr (fmt : String) (d : List (String × PyVal)) :
    ∀ e : Err, strFormat fmt d = .error e → e.isStyleErr = false := by
  intro e he
  unfold strFormat at he
  exact strFormatAux_not_styleErr _ (dictLook_not_styleErr d) fmt.data .text "" e he

/-- Helper: timestamp rendering never raises the format-time style error. -/
theorem formatTime_not_styleErr (f : Formatter) (r : LogRecord) (datefmt : String) :
    ∀ e : Err, Formatter.formatTime f r datefmt = .error e → e.isStyleErr = false := by
  intro e he
  unfold Formatter.formatTime strFormatPos at he
  exact strFormatAux_not_styleErr _ (posLook_not_styleErr _) _ _ "" e he

/-- Helper: with a valid style tag the dictionary-substitution step only
fails inside the selected substitution, never with the style error. -/
theorem styleStep_not_styleErr (f : Formatter) (r : LogRecord)
    (hstyle : f.style = pctStr ∨ f.style = braceStr) :
    ∀ e : Err, styleStep f r = .error e → e.isStyleErr = false := by
  intro e he
  unfold styleStep at he
  rcases hstyle with h | h
  · rw [if_pos h] at he
    split at he
    · rename_i e0 heq
      cases he
      exact pyModMap_not_styleErr _ _ _ heq
    · simp at he
  · rw [if_neg (by rw [h]; decide), if_pos h] at he
    split at he
    · rename_i e0 heq
      cases he
      exact strFormat_not_styleErr _ _ _ heq
    · simp at he

/-- Helper: with a valid style tag no call of `Formatter.format` raises
the format-time style error. -/
theorem format_err_not_styleErr (f : Formatter)
    (hstyle : f.style = pctStr ∨ f.style = braceStr) (r : LogRecord) :
    ∀ e : Err, (Formatter.format f r).1 = .error e → e.isStyleErr = false := by
  intro e he
  unfold Formatter.format at he
  cases hm : pyMod r.msg r.args with
  | error e0 =>
    rw [hm] at he
    simp at he
    subst he
    exact pyModAux_not_styleErr _ _ _ _ _ hm
  | ok m =>
    rw [hm] at he
    by_cases ht : f.usesTime <;>
      simp only [ht, if_true, if_false, Bool.false_eq_true] at he
    · cases hft : Formatter.formatTime f { r with message := some m } f.datefmt with
      | error e1 =>
        rw [hft] at he
        simp at he
        subst he
        exact formatTime_not_styleErr _ _ _ _ hft
      | ok t =>
        rw [hft] at he
        dsimp only at he
        cases hei : r.exc_info with
        | none =>
          rw [hei] at he
          dsimp only at he
          exact styleStep_not_styleErr f _ hstyle _ he
        | some ei =>
          rw [hei] at he
          cases het : r.exc_text with
          | none =>
            rw [het] at he
            simp at he
            subst he
            rfl
          | some t0 =>
            rw [het] at he
            cases hfe : f.formatExc with
            | none =>
              rw [hfe] at he
              simp at he
              subst he
              rfl
            | some fe =>
              rw [hfe] at he
              dsimp only at he
              exact styleStep_not_styleErr f _ hstyle _ he
    · try dsimp only at he
      cases hei : r.exc_info with
      | none =>
        rw [hei] at he
        dsimp only at he
        exact styleStep_not_styleErr f _ hstyle _ he
      | some ei =>
        rw [hei] at he
        cases het : r.exc_text with
        | none =>
          rw [het] at he
          simp at he
          subst he
          rfl
        | some t0 =>
          rw [het] at he
          cases hfe : f.formatExc with
          | none =>
            rw [hfe] at he
            simp at he
            subst he
            rfl
          | some fe =>
            rw [hfe] at he
            dsimp only at he
            exact styleStep_not_styleErr f _ hstyle _ he

/-- C8: `Formatter` construction fails (with the `ValueError` of the style
check) exactly when the style tag is neither `%` nor brace; and a formatter
that was constructed successfully can never raise the format-time style
error, whatever record it formats. -/
theorem formatter_style_check_at_construction (fmt datefmt : Option String)
    (style : String) (conv : Option (Int → List Int)) :
    ((∃ f : Formatter, Formatter.init fmt datefmt style conv = .ok f) ↔
      (style = pctStr ∨ style = braceStr))
    ∧ (∀ f : Formatter, Formatter.init fmt datefmt style conv = .ok f →
        ∀ (r : LogRecord) (s : String),
          (Formatter.format f r).1 ≠ .error (.styleNotSupported s)) := by
  constructor
  · constructor
    · rintro ⟨f, hf⟩
      unfold Formatter.init at hf
      by_cases h : style = pctStr ∨ style = braceStr
      · exact h
      · rw [if_neg h] at hf
        cases hf
    · intro h
      refine ⟨⟨fmt.getD "%(message)s", datefmt.getD "{0}-{1}-{2} {3}:{4}:{5}",
        conv.getD localtime, style, Option.none⟩, ?_⟩
      unfold Formatter.init
      rw [if_pos h]
  · intro f hf r s hcon
    have hstyle : f.style = pctStr ∨ f.style = braceStr := by
      unfold Formatter.init at hf
      by_cases h : style = pctStr ∨ style = braceStr
      · rw [if_pos h] at hf
        injection hf with h2
        subst h2
        exact h
      · rw [if_neg h] at hf
        cases hf
    have hne := format_err_not_styleErr f hstyle r _ hcon
    simp [Err.isStyleErr] at hne

/-- Witness for C8: the default `%`-style formatter is constructible and a
concrete format call raises no style error. -/
theorem formatter_style_check_at_construction_witness :
    (Formatter.format Formatter.default (mkLogRecord defaultLevelDict 0 "svc" 20
      Option.none Option.none "hi" [] Option.none Option.none Option.none Option.none)).1 ≠
      .error (.styleNotSupported "%") :=
  (formatter_style_check_at_construction Option.none Option.none "%" Option.none).2
    Formatter.default rfl
    (mkLogRecord defaultLevelDict 0 "svc" 20 Option.none Option.none "hi" []
      Option.none Option.none Option.none Option.none) "%"

/-- Helper: the number of `converter` invocations a `format` call performs
is 1 exactly when the message interpolation succeeded and the format string
references the timestamp field, else 0. -/
theorem format_converter_count (f : Formatter) (r : LogRecord) :
    (Formatter.format f r).2 =
      if okB (pyMod r.msg r.args) = true ∧ f.usesTime = true then 1 else 0 := by
  unfold Formatter.format
  cases hm : pyMod r.msg r.args with
  | error e => simp [okB]
  | ok m =>
    by_cases ht : f.usesTime <;>
      simp only [ht, if_true, if_false, okB, Bool.false_eq_true, and_true, and_false, if_neg]
    · cases hft : Formatter.formatTime f { r with message := some m } f.datefmt <;>
        (try dsimp only) <;> (repeat' split) <;> rfl
    · (try dsimp only) <;> (repeat' split) <;> rfl

/-- C9 counterexample: the invocation biconditional fails as stated. On a
call whose message interpolation raises (template `"%d"` with no
arguments), the time-conversion function is invoked zero times although
`usesTime()` is true for the formatter. -/
theorem usesTime_converter_not_invoked_counterexample :
    ({ Formatter.default with fmt := "%(asctime)s %(message)s" } : Formatter).usesTime = true
    ∧ (Formatter.format { Formatter.default with fmt := "%(asctime)s %(message)s" }
        (mkLogRecord defaultLevelDict 0 "svc" 20 Option.none Option.none "%d" []
          Option.none Option.none Option.none Option.none)).2 = 0 := by
  exact ⟨rfl, rfl⟩

/-- C9 amended: `usesTime()` is the configured-style substring test for
the timestamp field, and `format` invokes the configured time-conversion
function exactly once per call when `usesTime()` holds and the message
interpolation that precedes the timestamp step succeeded, and never
otherwise; in particular a format string without a timestamp reference
never invokes it. -/
theorem usesTime_gates_time_conversion (f : Formatter) (r : LogRecord) :
    (f.style = pctStr → f.usesTime = listContainsSub "%(asctime)".data f.fmt.data)
    ∧ (f.style = braceStr → f.usesTime = listContainsSub "\x7basctime".data f.fmt.data)
    ∧ (f.usesTime = false → (Formatter.format f r).2 = 0)
    ∧ (okB (pyMod r.msg r.args) = true →
        (Formatter.format f r).2 = if f.usesTime = true then 1 else 0)
    ∧ (1 ≤ (Formatter.format f r).2 ↔
        (f.usesTime = true ∧ okB (pyMod r.msg r.args) = true)) := by
  have hc := format_converter_count f r
  refine ⟨?_, ?_, ?_, ?_, ?_⟩
  · intro h
    simp [Formatter.usesTime, h]
  · intro h
    unfold Formatter.usesTime
    rw [h, if_neg (by decide), if_pos rfl]
  · intro h
    rw [hc, if_neg]
    simp [h]
  · intro h
    rw [hc]
    by_cases ht : f.usesTime = true <;> simp [ht, h]
  · rw [hc]
    by_cases ht : f.usesTime = true <;> by_cases hp : okB (pyMod r.msg r.args) = true <;>
      simp [ht, hp]

/-- Witness for C9: the default formatter (no timestamp field) performs
zero conversions; an `asctime`-referencing formatter performs exactly one
on a successfully interpolated message. -/
theorem usesTime_gates_time_conversion_witness :
    ((Formatter.format Formatter.default (mkLogRecord defaultLevelDict 0 "svc" 20
        Option.none Option.none "hi" [] Option.none Option.none Option.none Option.none)).2 = 0)
    ∧ ((Formatter.format { Formatter.default with fmt := "%(asctime)s %(message)s" }
        (mkLogRecord defaultLevelDict 0 "svc" 20 Option.none Option.none "hi" []
          Option.none Option.none Option.none Option.none)).2 =
        if ({ Formatter.default with fmt := "%(asctime)s %(message)s" } : Formatter).usesTime = true
        then 1 else 0) := by
  constructor
  · exact (usesTime_gates_time_conversion Formatter.default
      (mkLogRecord defaultLevelDict 0 "svc" 20 Option.none Option.none "hi" []
        Option.none Option.none Option.none Option.none)).2.2.1 rfl
  · exact (usesTime_gates_time_conversion { Formatter.default with fmt := "%(asctime)s %(message)s" }
      (mkLogRecord defaultLevelDict 0 "svc" 20 Option.none Option.none "hi" []
        Option.none Option.none Option.none Option.none)).2.2.2.1 rfl

/-- Helper: interpolating a template that contains a bare `%` conversion
directive against an empty argument tuple always raises. -/
theorem pyModAux_empty_args_raises (cs : List Char) :
    ∀ (b : Bool) (acc : String), hasBareDirective cs b = true →
      ∃ e : Err, pyModAux cs (if b then .pct else .text) [] acc = .error e := by
  induction cs with
  | nil =>
    intro b acc h
    cases b
    · simp [hasBareDirective] at h
    · exact ⟨.valueError "incomplete format", by simp [pyModAux]⟩
  | cons c cs ih =>
    intro b acc h
    cases b <;> simp only [hasBareDirective] at h <;> simp only [pyModAux, if_true, if_false]
    · by_cases hc : c = pctChar
      · rw [if_pos hc] at h ⊢
        simpa using ih true acc h
      · rw [if_neg hc] at h ⊢
        simpa using ih false (acc.push c) h
    · by_cases hc : c = pctChar
      · rw [if_pos hc] at h ⊢
        simpa using ih false (acc.push pctChar) h
      · rw [if_neg hc]
        by_cases hs1 : c = sChar
        · exact ⟨.typeError "not enough arguments for format string", by simp [hs1]⟩
        · by_cases hd1 : c = dChar
          · exact ⟨.typeError "not enough arguments for format string", by simp [hs1, hd1]⟩
          · exact ⟨.valueError "unsupported format character", by simp [hs1, hd1]⟩

/-- C10: `format` always computes the message by `%`-interpolation of
`record.msg` with `record.args`, whatever the configured style: an
interpolation error is the result of the whole call, and in particular a
record with an empty argument tuple whose template contains a bare `%`
conversion directive makes `format` raise instead of rendering the
template literally. -/
theorem format_interpolates_msg_even_with_empty_args (f : Formatter) (r : LogRecord) :
    (∀ e : Err, pyMod r.msg r.args = .error e → (Formatter.format f r).1 = .error e)
    ∧ (r.args = [] → hasBareConvDirective r.msg = true →
        ∃ e : Err, (Formatter.format f r).1 = .error e) := by
  constructor
  · intro e he
    unfold Formatter.format
    rw [he]
  · intro h0 hdir
    obtain ⟨e, he⟩ := pyModAux_empty_args_raises r.msg.data false "" hdir
    refine ⟨e, ?_⟩
    have hpm : pyMod r.msg r.args = .error e := by
      rw [pyMod, h0]
      simpa using he
    unfold Formatter.format
    rw [hpm]

/-- Witness for C10: a brace-style formatter still fails on an
argument-less record whose template is `"%d"`. -/
theorem format_interpolates_msg_even_with_empty_args_witness :
    ∃ e : Err,
      (Formatter.format { Formatter.default with style := braceStr, fmt := "\x7bmessage\x7d" }
        (mkLogRecord defaultLevelDict 0 "svc" 20 Option.none Option.none "%d" []
          Option.none Option.none Option.none Option.none)).1 = .error e :=
  (format_interpolates_msg_even_with_empty_args
    { Formatter.default with style := braceStr, fmt := "\x7bmessage\x7d" }
    (mkLogRecord defaultLevelDict 0 "svc" 20 Option.none Option.none "%d" []
      Option.none Option.none Option.none Option.none)).2 rfl rfl

end ULogging
